import Mathlib

/-!
Verification development for the element-annotator subsystem of the
website-interaction agent (sully_utils.py, website_interaction_tools.py).

The element formatter, the marker bookkeeping (`self.rects`) and the click
tool are embedded as executable Lean functions; claims from the design
document are settled as theorems about these definitions.
-/

/-- Python truthiness of an optional string attribute (`None` and `""` are
falsy), as used for `if ele_aria_label:` in sully_utils.py. -/
def optTruthy : Option String → Bool
  | none => false
  | some s => !s.isEmpty

/-- Python `x in list` for an optional attribute value: `None in [...]` is
`False`; a string is tested by membership. Used for `ele_type in [...]`. -/
def optMem (o : Option String) (l : List String) : Bool :=
  match o with
  | none => false
  | some s => l.contains s

/-- Is `pat` a contiguous sublist of `l`?  (Executable infix test.) -/
def listInfixOf [BEq α] : List α → List α → Bool
  | _, [] => false
  | pat, a :: as => List.isPrefixOf pat (a :: as) || listInfixOf pat as

/-- Python substring test `pat in s` (an empty pattern is contained in
every string). -/
def containsSub (s pat : String) : Bool :=
  pat.data.isEmpty || listInfixOf pat.data s.data

/-- Python `s.lower()`, written over the character list so that it is
kernel-computable (the library `String.toLower` recurses on byte positions
and does not reduce definitionally). -/
def strLower (s : String) : String :=
  ⟨s.data.map Char.toLower⟩

/-- Modelled from the spec: the in-page annotation script (`label_script.txt`,
read from disk at runtime and not part of src/) returns, per discovered
element, its rectangle geometry together with a handle usable for later
attribute queries (spec §6).  One `ScriptItem` is one entry of that result:
the rectangle (as an opaque node id), the element handle (opaque id), the
rendered text, the tag name, and the `type` / `aria-label` attributes that
`get_web_element_rect` later queries on the handle. -/
structure ScriptItem where
  rect : Nat
  handle : Nat
  text : String
  tag_name : String
  type_attr : Option String
  aria_label : Option String
deriving DecidableEq, Repr

/-- The f-string `f"[{web_ele_id}]: <{ele_tag_name}> \"{lbl}\";"` of
sully_utils.py lines 261/263/269/271. -/
def taggedLine (i : Nat) (tag lbl : String) : String :=
  s!"[{i}]: <{tag}> \"{lbl}\";"

/-- The f-string `f"[{web_ele_id}]: \"{lbl}\";"` of sully_utils.py
lines 274/276 (no tag marker). -/
def plainLine (i : Nat) (lbl : String) : String :=
  s!"[{i}]: \"{lbl}\";"

/-- The two-part label `label_text`, `aria_label` as it appears inside the
surrounding quotes of the f-strings at lines 269/274:
`\"{label_text}\", \"{ele_aria_label}\"`. -/
def pairLabel (t a : String) : String :=
  t ++ "\", \"" ++ a

/-- `input_attr_types = ['text', 'search', 'password', 'email', 'tel']`
(sully_utils.py line 256). -/
def input_attr_types : List String :=
  ["text", "search", "password", "email", "tel"]

/-- The loop body of `get_web_element_rect` (sully_utils.py lines 251-276):
given the index `web_ele_id` and the script item, returns the formatted line
appended for that element, or `none` when the element is dropped from
`formatted_text`. -/
def formatElement (web_ele_id : Nat) (it : ScriptItem) : Option String :=
  let label_text := it.text
  let ele_tag_name := it.tag_name
  let ele_type := it.type_attr
  let ele_aria_label := it.aria_label
  if label_text.isEmpty then
    -- `if not label_text:` branch, lines 258-263
    if (strLower ele_tag_name == "input" && optMem ele_type input_attr_types)
        || strLower ele_tag_name == "textarea"
        || (strLower ele_tag_name == "button" && optMem ele_type ["submit", "button"]) then
      if optTruthy ele_aria_label then
        some (taggedLine web_ele_id ele_tag_name (ele_aria_label.getD ""))
      else
        some (taggedLine web_ele_id ele_tag_name label_text)
    else none
  else
    -- `elif label_text and len(label_text) < 200:` branch, lines 265-276
    if label_text.length < 200 then
      if !(containsSub label_text "<img" && containsSub label_text "src=") then
        if List.contains ["button", "input", "textarea"] ele_tag_name then
          if optTruthy ele_aria_label && (ele_aria_label.getD "" != label_text) then
            some (taggedLine web_ele_id ele_tag_name
              (pairLabel label_text (ele_aria_label.getD "")))
          else
            some (taggedLine web_ele_id ele_tag_name label_text)
        else
          if optTruthy ele_aria_label && (ele_aria_label.getD "" != label_text) then
            some (plainLine web_ele_id (pairLabel label_text (ele_aria_label.getD "")))
          else
            some (plainLine web_ele_id label_text)
      else none
    else none

/-- The `for web_ele_id in range(len(items_raw))` loop of
`get_web_element_rect`, instrumented to keep, next to each produced line, the
index `web_ele_id` that the line's `[{web_ele_id}]:` prefix was built from. -/
def formatPass (items : List ScriptItem) : List (Nat × String) :=
  (List.range items.length).filterMap (fun i =>
    match items.get? i with
    | some it => (formatElement i it).map (fun line => (i, line))
    | none => none)

/-- `format_ele_text = '\t'.join(format_ele_text)` (sully_utils.py line 279). -/
def format_ele_text (items : List ScriptItem) : String :=
  String.intercalate "\t" ((formatPass items).map Prod.snd)

/-- `get_web_element_rect` (sully_utils.py lines 220-283), as a function of
the script result: returns the rectangles, the element handles
`[web_ele['element'] for web_ele in items_raw]`, and the formatted text. -/
def get_web_element_rect (items_raw : List ScriptItem) :
    List Nat × List Nat × String :=
  (items_raw.map ScriptItem.rect,
   items_raw.map ScriptItem.handle,
   format_ele_text items_raw)

/-- The indices assigned to the discovered elements by the loop
`for web_ele_id in range(len(items_raw))`: element number `i` of the raw list
is annotated with index `i`, so the assigned indices are exactly
`range (len items_raw)`. -/
def assignedIndices (items_raw : List ScriptItem) : List Nat :=
  List.range items_raw.length

/-- Python `sep.join(s)` where `s` is itself a *string*: iterating a string
yields its characters, so every character becomes one join item.  This is
what `"\t".join(element_text)` does at sully_utils.py line 180, where
`element_text` is already the tab-joined string returned by
`get_web_element_rect`. -/
def pyStrJoin (sep s : String) : String :=
  String.intercalate sep (s.data.map (fun c => String.mk [c]))

/-- The string returned by `get_current_webpage_state` (sully_utils.py
lines 152-180) to the decision loop: `"\t".join(element_text)` applied to the
`element_text` string produced by `get_web_element_rect`.  (The screenshot
and session-state side effects of that method are not needed by any claim.) -/
def get_current_webpage_state (items : List ScriptItem) : String :=
  pyStrJoin "\t" (format_ele_text items)

/-! ## Marker bookkeeping (`self.rects` and the in-page removal script) -/

/-- The in-page removal loop of `del_web_element_rect` (sully_utils.py
lines 294-298):
`for (i...) { document.body.removeChild(arguments[0][i]); }`.
The page's child nodes are a list of node ids; `removeChild` removes the
node when present and otherwise throws `NotFoundError`, aborting the rest of
the script.  Returns the page contents after the loop stops together with
`true` when the whole loop ran, `false` when it threw. -/
def removeChildrenPartial : List Nat → List Nat → List Nat × Bool
  | page, [] => (page, true)
  | page, r :: rest =>
    if page.contains r then removeChildrenPartial (page.erase r) rest
    else (page, false)

/-- The annotator's state as far as markers are concerned: `nextId` supplies
fresh node ids for newly drawn rectangles, `page` is the list of marker nodes
currently attached to `document.body`, `rects` is the `self.rects` attribute
(`none` when the attribute does not exist), and `lastPass` records the marker
set created by the most recent annotation pass (ghost data used to state the
invariant). -/
structure AnnotState where
  nextId : Nat
  page : List Nat
  rects : Option (List Nat)
  lastPass : List Nat
deriving DecidableEq, Repr

/-- The agent before any annotation pass: empty page, no `rects` attribute. -/
def initState : AnnotState :=
  { nextId := 0, page := [], rects := none, lastPass := [] }

/-- The marker side effect of `get_web_element_rect` (sully_utils.py
lines 245 and 282) for a pass that discovers `n` elements: the in-page script
appends `n` fresh rectangle nodes to `document.body`, and `self.rects` is
overwritten with exactly those nodes.  Previously drawn markers are *not*
removed by this call. -/
def annotateStep (s : AnnotState) (n : Nat) : AnnotState :=
  let fresh := (List.range n).map (fun k => s.nextId + k)
  { nextId := s.nextId + n,
    page := s.page ++ fresh,
    rects := some fresh,
    lastPass := fresh }

/-- `del_web_element_rect` (sully_utils.py lines 286-300): when the `rects`
attribute exists, run the removal script over it; when the script completes,
`del self.rects` clears the attribute.  When the script throws (a tracked
node was no longer a child of the body), `execute_script` raises and
`del self.rects` is never reached, so the attribute survives.  Without the
attribute the call does nothing. -/
def del_web_element_rect (s : AnnotState) : AnnotState :=
  match s.rects with
  | none => s
  | some rs =>
    let r := removeChildrenPartial s.page rs
    if r.2 then { s with page := r.1, rects := none }
    else { s with page := r.1 }

/-- One call the decision loop can make against the annotator. -/
inductive AnnotOp where
  | annotate (n : Nat)
  | clear
deriving DecidableEq, Repr

/-- Run one call. -/
def runOp (s : AnnotState) : AnnotOp → AnnotState
  | .annotate n => annotateStep s n
  | .clear => del_web_element_rect s

/-- Run a call sequence from the initial state. -/
def runOps (ops : List AnnotOp) : AnnotState :=
  ops.foldl runOp initState

/-- The call discipline of the decision loop (spec §5): `annotate` is only
issued when no markers are outstanding, i.e. every `annotate` is separated
from the previous one by at least one `clear`.  `pending` records whether a
pass is outstanding. -/
def wellSeqFrom (pending : Bool) : List AnnotOp → Bool
  | [] => true
  | .annotate _ :: rest => !pending && wellSeqFrom true rest
  | .clear :: rest => wellSeqFrom false rest

/-- A call sequence obeying the decision loop's discipline, started from the
initial state. -/
def wellSeq (ops : List AnnotOp) : Bool :=
  wellSeqFrom false ops

/-! ## The click tool (website_interaction_tools.py) -/

/-- A web element handle as the click tool sees it: `clickError = some m`
models a `.click()` call that raises an exception with message `m` (a stale
handle, an intercepted click, ...); `clickError = none` a click that
succeeds. -/
structure WebElem where
  clickError : Option String
deriving DecidableEq, Repr

/-- The dictionary `tool_click_web_element` returns: either
`{"error": msg}` or `{"status": s, "message": msg}`. -/
inductive ToolDict where
  | errDict (msg : String)
  | okDict (status : Nat) (message : String)
deriving DecidableEq, Repr

/-- `{"error": "No browser instance found in tool context."}`. -/
def noBrowserMsg : String := "No browser instance found in tool context."

/-- `f"Web element number {web_element_num} is out of range."`. -/
def outOfRangeMsg (n : Int) : String :=
  s!"Web element number {n} is out of range."

/-- `f"Clicked on web element number {web_element_num}."`. -/
def clickedMsg (n : Int) : String :=
  s!"Clicked on web element number {n}."

/-- The message of the `IndexError` Python raises for a list subscript that
is out of bounds on both ends. -/
def indexErrorMsg : String := "list index out of range"

/-- Python list subscription `l[i]`: a non-negative index must be below the
length, a negative index counts from the end (`l[-1]` is the last element),
and anything else raises `IndexError` (modelled as `none`). -/
def pyListGet (l : List α) (i : Int) : Option α :=
  if 0 ≤ i then l.get? i.toNat
  else if 0 ≤ (l.length : Int) + i then l.get? ((l.length : Int) + i).toNat
  else none

/-- The list position Python resolves subscript `i` to (meaningful when
`pyListGet` succeeds). -/
def pyResolvedIndex (l : List α) (i : Int) : Nat :=
  if 0 ≤ i then i.toNat else ((l.length : Int) + i).toNat

/-- `tool_click_web_element` (website_interaction_tools.py lines 31-56).
Inputs: whether `tool_context.state.get("webdriver")` is truthy, the
`web_elements` entry of the state (`none` models a missing entry), and the
requested `web_element_num`.  Returns the dictionary handed back to the
caller together with the position of the element actually clicked (`none`
when no click happened).  The `time.sleep(2)` has no observable effect here.
Everything after the range check runs inside `try/except Exception`, so the
sub-zero `IndexError` and any `.click()` exception both come back as
`{"error": str(e)}`. -/
def tool_click_web_element (browserPresent : Bool)
    (webElements : Option (List WebElem)) (web_element_num : Int) :
    ToolDict × Option Nat :=
  if !browserPresent then
    (.errDict noBrowserMsg, none)
  else
    match webElements with
    | none => (.errDict (outOfRangeMsg web_element_num), none)
    | some l =>
      if l.isEmpty || (l.length : Int) ≤ web_element_num then
        (.errDict (outOfRangeMsg web_element_num), none)
      else
        match pyListGet l web_element_num with
        | none => (.errDict indexErrorMsg, none)
        | some e =>
          match e.clickError with
          | some m => (.errDict m, none)
          | none => (.okDict 200 (clickedMsg web_element_num),
                     some (pyResolvedIndex l web_element_num))

/-- The label the empty-text branch puts between the quotes: the aria-label
when present and non-empty, the empty string otherwise. -/
def ariaOrEmpty : Option String → String
  | some a => if a = "" then "" else a
  | none => ""

/-- The label the non-empty-text branches put between the quotes: the text,
with the aria-label appended comma-separated when it is non-empty and
different from the text. -/
def composedLabel (it : ScriptItem) : String :=
  match it.aria_label with
  | none => it.text
  | some a => if a ≠ "" ∧ a ≠ it.text then pairLabel it.text a else it.text

/-! ## Concrete fixtures -/

/-- A `<div>` with text `"Contact Us"` and no aria-label. -/
def demoDiv : ScriptItem := ⟨0, 10, "Contact Us", "div", none, none⟩

/-- A `<button type="submit">` with empty text and `aria-label="Send"`. -/
def demoSendBtn : ScriptItem := ⟨1, 11, "", "button", some "submit", some "Send"⟩

/-- A `<button>` with text `"Submit"` and `aria-label="submit-form"`. -/
def demoSubmitBtn : ScriptItem := ⟨2, 12, "Submit", "button", none, some "submit-form"⟩

/-- A `<button>` with text `"Submit"` and an aria-label that is present but
empty (`aria-label=""`). -/
def emptyAriaBtn : ScriptItem := ⟨3, 13, "Submit", "button", none, some ""⟩

/-- Two short plain-text elements, texts `"a"` and `"b"`. -/
def demoA : ScriptItem := ⟨4, 14, "a", "div", none, none⟩

/-- See `demoA`. -/
def demoB : ScriptItem := ⟨5, 15, "b", "div", none, none⟩

/-- An annotator state in which the script of the last pass drew markers 0
and 1 but marker 0 has since been removed from the page externally. -/
def detachedState : AnnotState :=
  { nextId := 2, page := [1], rects := some [0, 1], lastPass := [0, 1] }

/-- An annotator state tracking markers 0, 1 and 3 of which 1 and 3 are no
longer on the page. -/
def abortState : AnnotState :=
  { nextId := 4, page := [0, 2], rects := some [0, 1, 3], lastPass := [0, 1, 3] }

/-- Three elements whose `.click()` all succeed. -/
def threeClickable : List WebElem := [⟨none⟩, ⟨none⟩, ⟨none⟩]

/-- The bookkeeping invariant of reachable annotator states: whenever the
`rects` attribute is set, it tracks distinct nodes that are all attached to
the body. -/
def rectsInv (s : AnnotState) : Prop :=
  ∀ rs, s.rects = some rs → rs.Nodup ∧ ∀ r ∈ rs, r ∈ s.page

/-- Strengthened invariant for call sequences obeying the decision loop's
discipline: with a pass outstanding the page holds exactly the markers of
that pass and `rects` tracks them; otherwise the page is clean and the
attribute is unset. -/
def loopInv : Bool → AnnotState → Prop
  | true, s => s.rects = some s.lastPass ∧ s.page = s.lastPass
  | false, s => s.rects = none ∧ s.page = []

/-! ## Helper lemmas -/

theorem optMem_iff (o : Option String) (l : List String) :
    optMem o l = true ↔ o ∈ l.map some := by
  cases o <;> simp [optMem]

theorem isEmpty_false_of_ne (s : String) (h : s ≠ "") : s.isEmpty = false := by
  rcases hb : s.isEmpty with _ | _
  · rfl
  · exact absurd ((String.isEmpty_iff _).mp hb) h

/-- The empty-text case of `formatElement`, with the filter condition
exposed. -/
theorem formatElement_of_empty (i : Nat) (it : ScriptItem) (h : it.text = "") :
    formatElement i it =
      if (strLower it.tag_name == "input" && optMem it.type_attr input_attr_types)
          || strLower it.tag_name == "textarea"
          || (strLower it.tag_name == "button" && optMem it.type_attr ["submit", "button"]) then
        (if optTruthy it.aria_label
         then some (taggedLine i it.tag_name (it.aria_label.getD ""))
         else some (taggedLine i it.tag_name it.text))
      else none := by
  have hE : it.text.isEmpty = true := by rw [h]; rfl
  simp only [formatElement, hE]
  rfl

/-- The non-empty-text case of `formatElement`, with the filter conditions
exposed. -/
theorem formatElement_of_nonempty (i : Nat) (it : ScriptItem) (h : it.text ≠ "") :
    formatElement i it =
      if it.text.length < 200 then
        if !(containsSub it.text "<img" && containsSub it.text "src=") then
          if List.contains ["button", "input", "textarea"] it.tag_name then
            if optTruthy it.aria_label && (it.aria_label.getD "" != it.text) then
              some (taggedLine i it.tag_name (pairLabel it.text (it.aria_label.getD "")))
            else
              some (taggedLine i it.tag_name it.text)
          else
            if optTruthy it.aria_label && (it.aria_label.getD "" != it.text) then
              some (plainLine i (pairLabel it.text (it.aria_label.getD "")))
            else
              some (plainLine i it.text)
        else none
      else none := by
  have hE : it.text.isEmpty = false := isEmpty_false_of_ne _ h
  simp only [formatElement, hE]
  rfl

example : formatElement 0 ⟨0, 0, "Contact Us", "div", none, none⟩
    = some "[0]: \"Contact Us\";" := by decide

example : formatElement 2 ⟨0, 0, "", "button", some "submit", some "Send"⟩
    = some "[2]: <button> \"Send\";" := by decide

example : formatElement 1 ⟨0, 0, "Submit", "button", none, some "submit-form"⟩
    = some "[1]: <button> \"Submit\", \"submit-form\";" := by decide

example : formatElement 1 ⟨0, 0, "x <img foo src=y", "div", none, none⟩
    = none := by decide

/-! ## More helper lemmas -/

theorem contains_iff_string (l : List String) (s : String) :
    l.contains s = true ↔ s ∈ l := by
  simp [List.contains]

/-- The inclusion condition of the empty-text branch, read propositionally. -/
theorem emptyCond_iff (it : ScriptItem) :
    ((strLower it.tag_name == "input" && optMem it.type_attr input_attr_types)
      || strLower it.tag_name == "textarea"
      || (strLower it.tag_name == "button" && optMem it.type_attr ["submit", "button"])) = true
    ↔ ((strLower it.tag_name = "input" ∧ it.type_attr ∈ input_attr_types.map some)
        ∨ strLower it.tag_name = "textarea"
        ∨ (strLower it.tag_name = "button"
            ∧ it.type_attr ∈ (["submit", "button"] : List String).map some)) := by
  simp only [Bool.or_eq_true, Bool.and_eq_true, beq_iff_eq, optMem_iff]
  tauto

/-- The aria-appending condition of the non-empty-text branches computes
`composedLabel`. -/
theorem code_label_eq (it : ScriptItem) :
    (if optTruthy it.aria_label && (it.aria_label.getD "" != it.text)
     then pairLabel it.text (it.aria_label.getD "") else it.text) = composedLabel it := by
  rcases ha : it.aria_label with _ | a
  · simp [optTruthy, composedLabel, ha]
  · by_cases h1 : a = ""
    · subst h1
      simp [optTruthy, composedLabel, ha, show ("" : String).isEmpty = true from rfl]
    · by_cases h2 : a = it.text
      · simp [optTruthy, composedLabel, ha, h1, h2, isEmpty_false_of_ne a h1]
      · simp [optTruthy, composedLabel, ha, h1, h2, isEmpty_false_of_ne a h1]

/-! ## Claim theorems -/

/-- C1: for every annotation pass, the markers list and the element-handles
list returned by `get_web_element_rect` have equal length; the indices
assigned to the discovered elements are unique, contiguous from 0 and in
traversal order of the raw element list; and the index carried by every line
of `formatted_text` is a valid position in the element-handles list. -/
theorem get_web_element_rect_index_consistency (items_raw : List ScriptItem) :
    ((get_web_element_rect items_raw).1).length
        = ((get_web_element_rect items_raw).2.1).length
    ∧ (assignedIndices items_raw).Nodup
    ∧ (∀ i : Nat, i ∈ assignedIndices items_raw ↔ i < items_raw.length)
    ∧ (assignedIndices items_raw).Pairwise (· < ·)
    ∧ (∀ p ∈ formatPass items_raw, p.1 < ((get_web_element_rect items_raw).2.1).length) := by
  refine ⟨by simp [get_web_element_rect], ?_, ?_, ?_, ?_⟩
  · simpa [assignedIndices] using List.nodup_range items_raw.length
  · intro i
    simp [assignedIndices, List.mem_range]
  · simpa [assignedIndices] using List.pairwise_lt_range items_raw.length
  intro p hp
  simp only [get_web_element_rect, List.length_map]
  simp only [formatPass] at hp
  rcases List.mem_filterMap.mp hp with ⟨j, hj, hf⟩
  rcases hg : items_raw.get? j with _ | it
  · rw [hg] at hf
    exact absurd hf (by simp)
  · rw [hg] at hf
    rcases Option.map_eq_some'.mp hf with ⟨line, _, hpe⟩
    have hpj : p.1 = j := by rw [← hpe]
    rw [hpj]
    exact List.mem_range.mp hj

/-- C2: a discovered element with empty visible text is included in
`formatted_text` iff it is an input whose `type` is one of
text/search/password/email/tel, or a textarea, or a button whose `type` is
submit or button; the included line's label is the aria-label when present
and non-empty, else the empty string. -/
theorem formatElement_empty_text (i : Nat) (it : ScriptItem) (h : it.text = "") :
    ((formatElement i it).isSome = true ↔
      ((strLower it.tag_name = "input" ∧ it.type_attr ∈ input_attr_types.map some)
        ∨ strLower it.tag_name = "textarea"
        ∨ (strLower it.tag_name = "button"
            ∧ it.type_attr ∈ (["submit", "button"] : List String).map some)))
    ∧ ∀ line, formatElement i it = some line →
        line = taggedLine i it.tag_name (ariaOrEmpty it.aria_label) := by
  have he := formatElement_of_empty i it h
  constructor
  · rw [he]
    split
    · rename_i hc
      exact iff_of_true (by split <;> rfl) ((emptyCond_iff it).mp hc)
    · rename_i hc
      exact iff_of_false (by simp) (fun hx => hc ((emptyCond_iff it).mpr hx))
  · intro line hline
    rw [he] at hline
    split at hline
    · rcases haa : it.aria_label with _ | a
      · rw [haa] at hline
        have hot : optTruthy (none : Option String) = false := rfl
        rw [hot, if_neg Bool.false_ne_true] at hline
        simp [ariaOrEmpty, haa, ← Option.some.inj hline, h]
      · rw [haa] at hline
        by_cases ha : a = ""
        · subst ha
          have hot : optTruthy (some "") = false := rfl
          rw [hot, if_neg Bool.false_ne_true] at hline
          simp [ariaOrEmpty, haa, ← Option.some.inj hline, h]
        · have hot : optTruthy (some a) = true := by
            simp [optTruthy, isEmpty_false_of_ne a ha]
          rw [hot, if_pos rfl] at hline
          simp [ariaOrEmpty, haa, ← Option.some.inj hline, ha]
    · exact absurd hline (by simp)

/-- C3: a discovered element with non-empty visible text is included in
`formatted_text` iff its text is shorter than 200 characters and does not
contain both `"<img"` and `"src="`. -/
theorem formatElement_nonempty_filter (i : Nat) (it : ScriptItem) (h : it.text ≠ "") :
    (formatElement i it).isSome = true ↔
      (it.text.length < 200
        ∧ ¬(containsSub it.text "<img" = true ∧ containsSub it.text "src=" = true)) := by
  rw [formatElement_of_nonempty i it h]
  by_cases hlen : it.text.length < 200
  · rw [if_pos hlen]
    by_cases himg : (containsSub it.text "<img" && containsSub it.text "src=") = true
    · rw [himg]
      apply iff_of_false
      · simp
      · rintro ⟨-, hn⟩
        exact hn (by simpa using himg)
    · have hff : (containsSub it.text "<img" && containsSub it.text "src=") = false :=
        Bool.eq_false_iff.mpr himg
      rw [hff, if_pos (show (!false : Bool) = true from rfl)]
      apply iff_of_true
      · split <;> split <;> rfl
      · exact ⟨hlen, fun hx => himg (by simp [hx.1, hx.2])⟩
  · rw [if_neg hlen]
    apply iff_of_false
    · simp
    · rintro ⟨hl, -⟩
      exact hlen hl

/-- C4 (amended): an element with non-empty text that passes the filter is
formatted with the `<tag>` marker iff its tag name is `button`, `input` or
`textarea`, and in both cases its label is the text with the aria-label
appended (comma-separated) exactly when the aria-label is present,
*non-empty*, and different from the text. -/
theorem formatElement_nonempty_label (i : Nat) (it : ScriptItem)
    (h1 : it.text ≠ "") (h2 : it.text.length < 200)
    (h3 : ¬(containsSub it.text "<img" = true ∧ containsSub it.text "src=" = true)) :
    formatElement i it =
      if it.tag_name ∈ (["button", "input", "textarea"] : List String) then
        some (taggedLine i it.tag_name (composedLabel it))
      else
        some (plainLine i (composedLabel it)) := by
  have hff : (containsSub it.text "<img" && containsSub it.text "src=") = false := by
    rcases hA : containsSub it.text "<img"
    · rfl
    · rcases hB : containsSub it.text "src="
      · rfl
      · exact absurd ⟨hA, hB⟩ h3
  rw [formatElement_of_nonempty i it h1, if_pos h2, hff]
  rw [if_pos (show (!false : Bool) = true from rfl)]
  rw [← code_label_eq it]
  by_cases hm : it.tag_name ∈ (["button", "input", "textarea"] : List String)
  · rw [if_pos ((contains_iff_string _ _).mpr hm), if_pos hm]
    rcases hcond : (optTruthy it.aria_label && (it.aria_label.getD "" != it.text)) <;>
      simp [hcond]
  · rw [if_neg (fun hx => hm ((contains_iff_string _ _).mp hx)), if_neg hm]
    rcases hcond : (optTruthy it.aria_label && (it.aria_label.getD "" != it.text)) <;>
      simp [hcond]

/-- C4 counterexample: on a `<button>` with text `"Submit"` whose aria-label
is present but empty, the aria-label is present and different from the text,
yet the code does not append it: the line keeps the plain `"Submit"` label. -/
theorem formatElement_empty_aria_not_appended :
    formatElement 1 emptyAriaBtn = some (taggedLine 1 "button" "Submit")
    ∧ taggedLine 1 "button" "Submit" ≠ taggedLine 1 "button" (pairLabel "Submit" "") := by
  constructor
  · decide
  · decide

/-- Witness for C2 at the spec's own example: a `<button type="submit">`
with empty text and `aria-label="Send"`. -/
theorem formatElement_empty_text_witness :
    ((formatElement 2 demoSendBtn).isSome = true ↔
      ((strLower demoSendBtn.tag_name = "input"
          ∧ demoSendBtn.type_attr ∈ input_attr_types.map some)
        ∨ strLower demoSendBtn.tag_name = "textarea"
        ∨ (strLower demoSendBtn.tag_name = "button"
            ∧ demoSendBtn.type_attr ∈ (["submit", "button"] : List String).map some)))
    ∧ ∀ line, formatElement 2 demoSendBtn = some line →
        line = taggedLine 2 demoSendBtn.tag_name (ariaOrEmpty demoSendBtn.aria_label) :=
  formatElement_empty_text 2 demoSendBtn rfl

/-- Witness for C3 at the `<div>` with text `"Contact Us"`. -/
theorem formatElement_nonempty_filter_witness :
    (formatElement 0 demoDiv).isSome = true ↔
      (demoDiv.text.length < 200
        ∧ ¬(containsSub demoDiv.text "<img" = true
            ∧ containsSub demoDiv.text "src=" = true)) :=
  formatElement_nonempty_filter 0 demoDiv (by decide)

/-- Witness for the amended C4 at the spec's own example: a `<button>` with
text `"Submit"` and `aria-label="submit-form"`. -/
theorem formatElement_nonempty_label_witness :
    formatElement 1 demoSubmitBtn =
      if demoSubmitBtn.tag_name ∈ (["button", "input", "textarea"] : List String) then
        some (taggedLine 1 demoSubmitBtn.tag_name (composedLabel demoSubmitBtn))
      else
        some (plainLine 1 (composedLabel demoSubmitBtn)) :=
  formatElement_nonempty_label 1 demoSubmitBtn (by decide) (by decide) (by decide)

/-- C5 (code evaluation at the failing input): `get_web_element_rect`
tab-joins the per-element lines once, but `get_current_webpage_state` then
applies `"\t".join` to that *string*, so the text handed to the decision
loop has a tab between every pair of adjacent characters (19 characters
become 37) instead of one tab between consecutive lines. -/
theorem get_current_webpage_state_double_join :
    format_ele_text [demoA, demoB] = "[0]: \"a\";\t[1]: \"b\";"
    ∧ get_current_webpage_state [demoA, demoB] ≠ "[0]: \"a\";\t[1]: \"b\";"
    ∧ (get_current_webpage_state [demoA, demoB]).length = 37 := by
  refine ⟨by decide, by decide, by decide⟩

/-! ## Marker state-machine lemmas -/

theorem contains_iff_nat (l : List Nat) (x : Nat) :
    l.contains x = true ↔ x ∈ l := by
  simp [List.contains]

/-- Removing a list of nodes from a page that consists of exactly those
nodes succeeds and empties the page. -/
theorem removeChildrenPartial_self (l : List Nat) :
    removeChildrenPartial l l = ([], true) := by
  induction l with
  | nil => rfl
  | cons a t ih =>
    have hc : (a :: t).contains a = true := by simp
    simp only [removeChildrenPartial, hc, if_pos, List.erase_cons_head]
    exact ih

/-- Removing distinct nodes that are all present succeeds. -/
theorem removeChildrenPartial_ok (rs : List Nat) :
    ∀ page : List Nat, rs.Nodup → (∀ r ∈ rs, r ∈ page) →
      (removeChildrenPartial page rs).2 = true := by
  induction rs with
  | nil => intro page _ _; rfl
  | cons a t ih =>
    intro page hnd hmem
    have ha : page.contains a = true :=
      (contains_iff_nat _ _).mpr (hmem a (by simp))
    simp only [removeChildrenPartial, ha, if_pos]
    apply ih
    · exact (List.nodup_cons.mp hnd).2
    · intro r hr
      have hne : r ≠ a := by
        rintro rfl
        exact (List.nodup_cons.mp hnd).1 hr
      exact (List.mem_erase_of_ne hne).mpr (hmem r (List.mem_cons_of_mem _ hr))

theorem del_of_no_rects (t : AnnotState) (h : t.rects = none) :
    del_web_element_rect t = t := by
  simp [del_web_element_rect, h]

theorem rectsInv_step (s : AnnotState) (op : AnnotOp) (h : rectsInv s) :
    rectsInv (runOp s op) := by
  cases op with
  | annotate n =>
    intro rs hrs
    simp only [runOp, annotateStep] at hrs
    obtain rfl : (List.range n).map (fun k => s.nextId + k) = rs := Option.some.inj hrs
    constructor
    · exact (List.nodup_range n).map (fun a b hab => by omega)
    · intro r hr
      simp only [runOp, annotateStep]
      exact List.mem_append_right _ hr
  | clear =>
    rcases hsr : s.rects with _ | rs0
    · have hdel : runOp s AnnotOp.clear = s := by
        simp [runOp, del_web_element_rect, hsr]
      rw [hdel]
      exact h
    · have hok := removeChildrenPartial_ok rs0 s.page (h rs0 hsr).1 (h rs0 hsr).2
      have hdel : runOp s AnnotOp.clear
          = { s with page := (removeChildrenPartial s.page rs0).1, rects := none } := by
        simp [runOp, del_web_element_rect, hsr, hok]
      rw [hdel]
      intro rs hrs
      exact absurd hrs (by simp)

/-- The bookkeeping invariant holds along every call sequence. -/
theorem foldl_rectsInv : ∀ (ops : List AnnotOp) (s : AnnotState),
    rectsInv s → rectsInv (ops.foldl runOp s)
  | [], _, hs => hs
  | op :: rest, s, hs => foldl_rectsInv rest _ (rectsInv_step s op hs)

theorem runOps_rectsInv (ops : List AnnotOp) : rectsInv (runOps ops) :=
  foldl_rectsInv ops initState (fun rs hrs => absurd hrs (by simp [initState]))

/-- C7: after any call sequence, one `del_web_element_rect` clears the
internal marker list (`self.rects` is gone), and a second call before a new
annotation pass is a no-op: it leaves the whole state — page included —
unchanged. -/
theorem del_web_element_rect_idempotent (ops : List AnnotOp) :
    (del_web_element_rect (runOps ops)).rects = none
    ∧ del_web_element_rect (del_web_element_rect (runOps ops))
        = del_web_element_rect (runOps ops) := by
  have hinv := runOps_rectsInv ops
  have h1 : (del_web_element_rect (runOps ops)).rects = none := by
    rcases hsr : (runOps ops).rects with _ | rs0
    · rw [del_of_no_rects _ hsr]
      exact hsr
    · have hok := removeChildrenPartial_ok rs0 (runOps ops).page
        (hinv rs0 hsr).1 (hinv rs0 hsr).2
      simp [del_web_element_rect, hsr, hok]
  exact ⟨h1, del_of_no_rects _ h1⟩

/-- C6 counterexample: two annotation passes with no clearing in between
leave the markers of both passes on the page: the page's marker set is
neither empty nor equal to the most recent pass's set. -/
theorem two_passes_leave_stale_markers :
    ¬((runOps [AnnotOp.annotate 1, AnnotOp.annotate 1]).page = []
      ∨ (runOps [AnnotOp.annotate 1, AnnotOp.annotate 1]).page
          = (runOps [AnnotOp.annotate 1, AnnotOp.annotate 1]).lastPass) := by
  decide

theorem wellSeq_loopInv (ops : List AnnotOp) : ∀ (pending : Bool) (s : AnnotState),
    wellSeqFrom pending ops = true → loopInv pending s →
    ∃ q, loopInv q (ops.foldl runOp s) := by
  induction ops with
  | nil =>
    intro p s _ hs
    exact ⟨p, hs⟩
  | cons op rest ih =>
    intro p s hw hs
    rw [List.foldl_cons]
    cases op with
    | annotate n =>
      obtain ⟨hp, hw'⟩ : (!p) = true ∧ wellSeqFrom true rest = true := by
        simpa [wellSeqFrom] using hw
      have hpf : p = false := by simpa using hp
      subst hpf
      obtain ⟨hrects, hpage⟩ := hs
      apply ih true _ hw'
      exact ⟨rfl, by simp [runOp, annotateStep, hpage]⟩
    | clear =>
      have hw' : wellSeqFrom false rest = true := by simpa [wellSeqFrom] using hw
      apply ih false _ hw'
      cases p with
      | false =>
        obtain ⟨hrects, hpage⟩ := hs
        have hdel : runOp s AnnotOp.clear = s := by
          simp [runOp, del_web_element_rect, hrects]
        rw [hdel]
        exact ⟨hrects, hpage⟩
      | true =>
        obtain ⟨hrects, hpage⟩ := hs
        have hdel : runOp s AnnotOp.clear = { s with page := [], rects := none } := by
          simp [runOp, del_web_element_rect, hrects, hpage, removeChildrenPartial_self]
        rw [hdel]
        exact ⟨rfl, rfl⟩

/-- C6 (amended): under the decision loop's call discipline — every
annotation pass is separated from the previous one by a
`del_web_element_rect` — the set of markers on the page is either empty or
exactly the set created by the most recent annotation pass.  (Without that
discipline the claim fails, see the counterexample.) -/
theorem page_markers_empty_or_last_pass (ops : List AnnotOp)
    (h : wellSeq ops = true) :
    (runOps ops).page = [] ∨ (runOps ops).page = (runOps ops).lastPass := by
  obtain ⟨q, hq⟩ := wellSeq_loopInv ops false initState h ⟨rfl, rfl⟩
  cases q with
  | false => exact Or.inl hq.2
  | true => exact Or.inr hq.2

/-- Witness for the amended C6 on the sequence annotate-clear-annotate. -/
theorem page_markers_empty_or_last_pass_witness :
    (runOps [AnnotOp.annotate 2, AnnotOp.clear, AnnotOp.annotate 1]).page = []
    ∨ (runOps [AnnotOp.annotate 2, AnnotOp.clear, AnnotOp.annotate 1]).page
        = (runOps [AnnotOp.annotate 2, AnnotOp.clear, AnnotOp.annotate 1]).lastPass :=
  page_markers_empty_or_last_pass _ (by decide)

/-- A successfully removed prefix commutes with continuing the removal. -/
theorem removeChildrenPartial_append (pre : List Nat) :
    ∀ (page rest : List Nat), (removeChildrenPartial page pre).2 = true →
      removeChildrenPartial page (pre ++ rest)
        = removeChildrenPartial (removeChildrenPartial page pre).1 rest := by
  induction pre with
  | nil =>
    intro page rest _
    rfl
  | cons a t ih =>
    intro page rest h
    by_cases hc : page.contains a = true
    · have e1 : removeChildrenPartial page (a :: t)
          = removeChildrenPartial (page.erase a) t := by
        simp only [removeChildrenPartial]
        rw [if_pos hc]
      have e2 : removeChildrenPartial page ((a :: t) ++ rest)
          = removeChildrenPartial (page.erase a) (t ++ rest) := by
        simp only [List.cons_append, removeChildrenPartial]
        rw [if_pos hc]
        rfl
      rw [e2, e1]
      rw [e1] at h
      exact ih (page.erase a) rest h
    · exfalso
      have e3 : removeChildrenPartial page (a :: t) = (page, false) := by
        simp only [removeChildrenPartial]
        rw [if_neg hc]
      rw [e3] at h
      exact absurd h (by simp)

/-- C8 (amended): the in-page removal is all-or-nothing per script run, not
best-effort per node: at the first tracked node that is no longer a child of
the body, `removeChild` throws — the nodes before it have been removed, the
nodes after it stay, and since `execute_script` raises, `del self.rects` is
never reached, so the tracked list survives. -/
theorem del_web_element_rect_aborts (s : AnnotState) (pre post : List Nat) (r : Nat)
    (hrs : s.rects = some (pre ++ r :: post))
    (hpre : (removeChildrenPartial s.page pre).2 = true)
    (hr : (removeChildrenPartial s.page pre).1.contains r = false) :
    del_web_element_rect s = { s with page := (removeChildrenPartial s.page pre).1 } := by
  have h1 := removeChildrenPartial_append pre s.page (r :: post) hpre
  have h2 : removeChildrenPartial (removeChildrenPartial s.page pre).1 (r :: post)
      = ((removeChildrenPartial s.page pre).1, false) := by
    simp only [removeChildrenPartial]
    rw [if_neg (by simpa using hr)]
  simp [del_web_element_rect, hrs, h1, h2]

/-- C8 counterexample: in `detachedState`, marker 0 was removed from the
page externally; `del_web_element_rect` does fail — the script throws at
node 0 — and marker 1, still on the page, is not removed, while the tracked
list survives.  One node's failure does prevent removing the rest. -/
theorem del_web_element_rect_fails_on_detached :
    (removeChildrenPartial detachedState.page [0, 1]).2 = false
    ∧ (del_web_element_rect detachedState).page = [1]
    ∧ (del_web_element_rect detachedState).rects = some [0, 1] := by
  refine ⟨by decide, by decide, by decide⟩

/-- Witness for the amended C8: tracked nodes `[0, 1, 3]` over page
`[0, 2]` — node 0 is removed, the script throws at node 1, node 3 is never
visited. -/
theorem del_web_element_rect_aborts_witness :
    del_web_element_rect abortState
      = { abortState with page := (removeChildrenPartial abortState.page [0]).1 } :=
  del_web_element_rect_aborts abortState [0] [3] 1 rfl (by decide) (by decide)

/-! ## Click tool theorems -/

/-- Unfolding of the tool after the browser and element-list checks pass. -/
theorem tool_click_cases (l : List WebElem) (n : Int) :
    tool_click_web_element true (some l) n =
      if l.isEmpty || (l.length : Int) ≤ n then
        (ToolDict.errDict (outOfRangeMsg n), none)
      else
        match pyListGet l n with
        | none => (ToolDict.errDict indexErrorMsg, none)
        | some e =>
          match e.clickError with
          | some m => (ToolDict.errDict m, none)
          | none => (ToolDict.okDict 200 (clickedMsg n), some (pyResolvedIndex l n)) :=
  rfl

/-- C9 (code evaluation at the failing input): with three clickable elements
tracked, element number ``-1`` — an index the last pass never handed out —
is not rejected by the range check: the Python negative subscript resolves
to the last element (position 2), which *is* clicked, and the tool reports
success instead of an out-of-range error. -/
theorem tool_click_negative_index_clicks :
    tool_click_web_element true (some threeClickable) (-1)
      = (ToolDict.okDict 200 (clickedMsg (-1)), some 2) := by
  decide

/-- C10: `tool_click_web_element` is a total function into result
dictionaries — it never propagates an exception.  Every run returns either
an `{"error": ...}` dictionary or a `{"status": 200, ...}` dictionary;
specifically: a falsy browser yields the no-browser error, a missing or
range-failing element list yields the out-of-range error, an `IndexError`
from the subscript and any exception from `.click()` are caught by the
`except` block and returned as `{"error": str(e)}`, and a successful click
returns status 200 with the clicked position recorded. -/
theorem tool_click_web_element_total (b : Bool) (we : Option (List WebElem)) (n : Int) :
    ((∃ m, tool_click_web_element b we n = (ToolDict.errDict m, none))
      ∨ ∃ m k, tool_click_web_element b we n = (ToolDict.okDict 200 m, some k))
    ∧ (b = false → tool_click_web_element b we n = (ToolDict.errDict noBrowserMsg, none))
    ∧ (b = true → we = none →
        tool_click_web_element b we n = (ToolDict.errDict (outOfRangeMsg n), none))
    ∧ (∀ l, b = true → we = some l → (l.isEmpty || (l.length : Int) ≤ n) = true →
        tool_click_web_element b we n = (ToolDict.errDict (outOfRangeMsg n), none))
    ∧ (∀ l, b = true → we = some l → (l.isEmpty || (l.length : Int) ≤ n) = false →
        pyListGet l n = none →
        tool_click_web_element b we n = (ToolDict.errDict indexErrorMsg, none))
    ∧ (∀ l e m, b = true → we = some l → (l.isEmpty || (l.length : Int) ≤ n) = false →
        pyListGet l n = some e → e.clickError = some m →
        tool_click_web_element b we n = (ToolDict.errDict m, none))
    ∧ (∀ l e, b = true → we = some l → (l.isEmpty || (l.length : Int) ≤ n) = false →
        pyListGet l n = some e → e.clickError = none →
        tool_click_web_element b we n
          = (ToolDict.okDict 200 (clickedMsg n), some (pyResolvedIndex l n))) := by
  refine ⟨?_, ?_, ?_, ?_, ?_, ?_, ?_⟩
  · cases b with
    | false => exact Or.inl ⟨noBrowserMsg, rfl⟩
    | true =>
      cases we with
      | none => exact Or.inl ⟨outOfRangeMsg n, rfl⟩
      | some l =>
        rcases hg : (l.isEmpty || (l.length : Int) ≤ n) with _ | _
        · rcases hpl : pyListGet l n with _ | e
          · exact Or.inl ⟨indexErrorMsg, by
              rw [tool_click_cases, hg, if_neg Bool.false_ne_true]
              simp [hpl]⟩
          · rcases hce : e.clickError with _ | m
            · exact Or.inr ⟨clickedMsg n, pyResolvedIndex l n, by
                rw [tool_click_cases, hg, if_neg Bool.false_ne_true]
                simp [hpl, hce]⟩
            · exact Or.inl ⟨m, by
                rw [tool_click_cases, hg, if_neg Bool.false_ne_true]
                simp [hpl, hce]⟩
        · exact Or.inl ⟨outOfRangeMsg n, by rw [tool_click_cases, hg, if_pos rfl]⟩
  · intro hb
    subst hb
    rfl
  · intro hb hwe
    subst hb
    subst hwe
    rfl
  · intro l hb hwe hg
    subst hb
    subst hwe
    rw [tool_click_cases, hg, if_pos rfl]
  · intro l hb hwe hg hpl
    subst hb
    subst hwe
    rw [tool_click_cases, hg, if_neg Bool.false_ne_true]
    simp [hpl]
  · intro l e m hb hwe hg hpl hce
    subst hb
    subst hwe
    rw [tool_click_cases, hg, if_neg Bool.false_ne_true]
    simp [hpl, hce]
  · intro l e hb hwe hg hpl hce
    subst hb
    subst hwe
    rw [tool_click_cases, hg, if_neg Bool.false_ne_true]
    simp [hpl, hce]
